import Mathlib

/-!
Verification of the relevance-filtering core of the used-car-listing search
service (src/api/services/car_service.py together with the request/response
models of src/api/models.py).  The Python code is shallowly embedded:
strings are Lean strings (ASCII behaviour of upper/strip/replace is what the
inputs exercise), Python integers are Lean Int/Nat, optional values are
Option, Python exceptions are the error case of Except, and the external
detail-fetch collaborator is a function parameter returning a FetchResult.
-/

deriving instance DecidableEq for Except

namespace UsedCars

/-! ### String primitives mirroring the Python built-ins used by the core -/

/-- Membership test of one list of characters inside another, mirroring the
Python substring operator applied to the underlying character sequences. -/
def listIsInfix (needle : List Char) : List Char → Bool
  | [] => needle.isEmpty
  | c :: t => needle.isPrefixOf (c :: t) || listIsInfix needle t

/-- Python substring containment, needle occurring anywhere in hay. -/
def strContains (hay needle : String) : Bool :=
  listIsInfix needle.toList hay.toList

/-- ASCII uppercase of one character, as Python str.upper acts on the
ASCII inputs handled by this service. -/
def charUpper (c : Char) : Char :=
  if 97 ≤ c.toNat && c.toNat ≤ 122 then Char.ofNat (c.toNat - 32) else c

/-- Python str.upper over the characters of a string. -/
def strUpper (s : String) : String := String.mk (s.toList.map charUpper)

/-- Whitespace stripped by Python str.strip. -/
def isSpaceChar (c : Char) : Bool :=
  c == ' ' || c == '\t' || c == '\n' || c == '\r' || c == '\x0b' || c == '\x0c'

/-- Python str.strip: remove leading and trailing whitespace. -/
def pyStrip (s : String) : String :=
  String.mk (((s.toList.dropWhile isSpaceChar).reverse.dropWhile isSpaceChar).reverse)

/-- Fuel-driven worker for Python str.replace: replace every non
overlapping occurrence of pat, scanning left to right. -/
def replaceFuel : Nat → List Char → List Char → List Char → List Char
  | 0, s, _, _ => s
  | Nat.succ fu, s, pat, rep =>
    match s with
    | [] => []
    | c :: t =>
      if pat.isPrefixOf (c :: t) then rep ++ replaceFuel fu ((c :: t).drop pat.length) pat rep
      else c :: replaceFuel fu t pat rep

/-- Python str.replace for the nonempty patterns used by the service. -/
def pyReplace (s pat rep : String) : String :=
  if pat.toList.isEmpty then s
  else String.mk (replaceFuel s.toList.length s.toList pat.toList rep.toList)

/-- Python truthiness of an optional string: None and the empty string are
falsy, every other string is truthy. -/
def optStrTruthy : Option String → Bool
  | some s => !s.toList.isEmpty
  | none => false

/-- Python truthiness of an optional nonnegative integer field: None and 0
are falsy. -/
def optNatTruthy : Option Nat → Bool
  | some n => decide (n ≠ 0)
  | none => false

/-- Auxiliary digit scanner for the Python int constructor on strings:
digits with single underscores allowed strictly between digits. -/
def pyDigits : List Char → Nat → Bool → Option Nat
  | [], acc, lastDigit => if lastDigit then some acc else none
  | c :: rest, acc, lastDigit =>
    if c.isDigit then pyDigits rest (acc * 10 + (c.toNat - 48)) true
    else if c == '_' && lastDigit then pyDigits rest acc false
    else none

/-- The Python int constructor applied to a string: surrounding whitespace
is stripped, an optional sign is accepted, and failure (ValueError) is
returned as none. -/
def pyIntParse (s : String) : Option Int :=
  match (pyStrip s).toList with
  | [] => none
  | '+' :: rest => (pyDigits rest 0 false).map (fun n => (n : Int))
  | '-' :: rest => (pyDigits rest 0 false).map (fun n => -(n : Int))
  | cs => (pyDigits cs 0 false).map (fun n => (n : Int))

/-! ### Data model (src/api/models.py) -/

/-- Condition enumeration of models.py (pass-through for the core). -/
inductive Condition
  | NEW | OPEN_BOX | REFURBISHED | USED | BROKEN | OTHER
deriving DecidableEq

/-- Sort enumeration of models.py (pass-through for the core). -/
inductive SortOption
  | NEWEST_FIRST | CLOSEST_FIRST | PRICE_LOW_TO_HIGH | PRICE_HIGH_TO_LOW
deriving DecidableEq

/-- Delivery enumeration of models.py (pass-through for the core). -/
inductive DeliveryOption
  | PICKUP | SHIPPING | PICKUP_AND_SHIPPING
deriving DecidableEq

/-- CarSearchRequest of models.py.  Numeric fields validated nonnegative by
pydantic are carried as Nat.  Latitude and longitude are floats in the
source; the core never inspects them, it only copies them. -/
structure CarSearchRequest where
  query : Option String := none
  state : Option String := none
  city : Option String := none
  lat : Option Float := none
  lon : Option Float := none
  limit : Nat := 50
  pickup_distance : Nat := 50
  price_min : Option Nat := none
  price_max : Option Nat := none
  sort : SortOption := SortOption.NEWEST_FIRST
  delivery : DeliveryOption := DeliveryOption.PICKUP
  conditions : List Condition := []
  year : Option Nat := none
  make : Option String := none
  model : Option String := none
  max_miles : Option Nat := none
  min_miles : Option Nat := none

/-- VehicleAttributes of models.py (normalized form). -/
structure VehicleAttributes where
  year : Option Int := none
  make : Option String := none
  model : Option String := none
  miles : Option Int := none
  color : Option String := none
  transmission : Option String := none
  fuel_type : Option String := none
  body : Option String := none
  drive_train : Option String := none
  vin : Option String := none
deriving DecidableEq

/-- CarListing of models.py. -/
structure CarListing where
  listing_id : String
  title : String
  price : Option String := none
  location_name : Option String := none
  listing_url : String := ""
  condition_text : Option String := none
  image_url : Option String := none
  vehicle_attributes : Option VehicleAttributes := none
deriving DecidableEq

/-- A numeric attribute in the raw upstream detail payload may arrive as an
integer or as a string. -/
inductive IntOrStr
  | int (n : Int)
  | str (s : String)
deriving DecidableEq

/-- The vehicleAttributes dictionary of the raw detail payload. -/
structure RawVehicleAttrs where
  vehicleYear : Option IntOrStr := none
  vehicleMake : Option String := none
  vehicleModel : Option String := none
  vehicleMiles : Option IntOrStr := none
  vehicleColor : Option String := none
  vehicleTransmissionClean : Option String := none
  vehicleFuelType : Option String := none
  vehicleBody : Option String := none
  vehicleDriveTrain : Option String := none
  vehicleVin : Option String := none
deriving DecidableEq

/-- Outcome of the external detail fetch for one listing id: the call may
raise, return a payload without the data.listing path, return a listing
without vehicleAttributes, or return the attributes dictionary. -/
inductive FetchResult
  | fetchFailed
  | noPayload
  | noAttrs
  | attrs (a : RawVehicleAttrs)
deriving DecidableEq

/-- Python truthiness of a raw numeric attribute: 0 and the empty string
are falsy. -/
def iosTruthy : IntOrStr → Bool
  | IntOrStr.int n => decide (n ≠ 0)
  | IntOrStr.str s => !s.toList.isEmpty

/-- Truthiness of an optional raw numeric attribute. -/
def iosTruthyO : Option IntOrStr → Bool
  | some v => iosTruthy v
  | none => false

/-- The coercion int(x) if isinstance(x, str) else x of car_service.py,
with a parse failure reported as none. -/
def coerceIOS : IntOrStr → Option Int
  | IntOrStr.int n => some n
  | IntOrStr.str s => pyIntParse s

/-- Python str() applied to a raw numeric attribute. -/
def iosToStr : IntOrStr → String
  | IntOrStr.int n => toString n
  | IntOrStr.str s => s

/-! ### Keyword Extractor (CarService._extract_keywords_from_query) -/

/-- The fixed ordered list of known makes scanned by the extractor, in the
exact source order. -/
def commonMakes : List String :=
  ["MERCEDES", "BENZ", "MERCEDES-BENZ", "HONDA", "TOYOTA", "FORD",
   "BMW", "AUDI", "LEXUS", "ACURA", "INFINITI", "NISSAN", "CHEVROLET",
   "CHEVY", "DODGE", "JEEP", "CHRYSLER", "GMC", "CADILLAC", "LINCOLN"]

/-- Character class of the regex [A-Z0-9]+ used for model candidates. -/
def isTokenChar (c : Char) : Bool :=
  (65 ≤ c.toNat && c.toNat ≤ 90) || (48 ≤ c.toNat && c.toNat ≤ 57)

/-- Accumulating scanner producing the maximal [A-Z0-9]+ runs of a
character list, mirroring re.findall. -/
def tokenRunsAux : List Char → List Char → List String
  | [], acc => if acc.isEmpty then [] else [String.mk acc.reverse]
  | c :: cs, acc =>
    if isTokenChar c then tokenRunsAux cs (c :: acc)
    else if acc.isEmpty then tokenRunsAux cs []
    else String.mk acc.reverse :: tokenRunsAux cs []

/-- All maximal [A-Z0-9]+ runs of a string, in order. -/
def tokenRuns (s : String) : List String := tokenRunsAux s.toList []

/-- Python str.isdigit for the ASCII runs produced here. -/
def isAllDigits (s : String) : Bool :=
  !s.toList.isEmpty && s.toList.all Char.isDigit

/-- Python max(candidates, key=len): the first candidate of maximal
length. -/
def maxByLen : List String → Option String
  | [] => none
  | x :: xs =>
    some (xs.foldl (fun best y => if y.length > best.length then y else best) x)

/-- CarService._extract_keywords_from_query: derive a candidate make and
model from free query text. -/
def extractKeywords (query : String) : Option String × Option String :=
  let queryUpper := strUpper query
  let mk := commonMakes.find? (fun m => strContains queryUpper m)
  let queryWithoutMake :=
    match mk with
    | some m => pyStrip (pyReplace (pyReplace queryUpper m "") "-" "")
    | none => queryUpper
  let modelPatterns := tokenRuns queryWithoutMake
  let modelCandidates :=
    modelPatterns.filter (fun p => !(isAllDigits p && p.length == 4))
  (mk, maxByLen modelCandidates)

example : extractKeywords "CLS63 Mercedes 2014" = (some "MERCEDES", some "CLS63") := by
  decide

example : (extractKeywords "HONDA BENZ").1 = some "BENZ" := by decide

example : extractKeywords "Honda Civic" = (some "HONDA", some "CIVIC") := by decide

/-! ### Title Matcher (the title-based checks inside _matches_filters) -/

/-- Part and accessory keywords excluded by the evaluator, in the exact
source order. -/
def partsKeywords : List String :=
  ["PART", "SHELL", "PANEL", "DOOR", "BUMPER", "FENDER", "HOOD", "TRUNK",
   "SEAT", "WHEEL", "RIM", "HEADLIGHT", "TAILLIGHT", "OEM", "DRIVER REAR"]

/-- A listing is a parts listing when any parts keyword occurs in the
uppercased title. -/
def isPartB (title : String) : Bool :=
  partsKeywords.any (fun k => strContains (strUpper title) k)

/-- The Mercedes alias group of the make check. -/
def isMercAlias (mU : String) : Bool :=
  mU == "MERCEDES" || mU == "MERCEDES-BENZ" || mU == "BENZ"

/-- Title make check: computed only for a truthy requested make; the
Mercedes alias group matches on MERCEDES or BENZ in the title. -/
def titleHasMake (mo : Option String) (titleUpper : String) : Bool :=
  match mo with
  | none => false
  | some s =>
    if s.toList.isEmpty then false
    else
      let mU := strUpper s
      if isMercAlias mU then
        strContains titleUpper "MERCEDES" || strContains titleUpper "BENZ"
      else strContains titleUpper mU

/-- Title model check: the requested model matched as given, space
stripped, hyphen stripped, spaces to hyphens, hyphens to spaces. -/
def titleHasModel (mo : Option String) (titleUpper : String) : Bool :=
  match mo with
  | none => false
  | some s =>
    if s.toList.isEmpty then false
    else
      let mU := strUpper s
      [mU, pyReplace mU " " "", pyReplace mU "-" "",
       pyReplace mU " " "-", pyReplace mU "-" " "].any
        (fun v => strContains titleUpper v)

/-- Title year check: the decimal string of a truthy requested year matched
against the original (not uppercased) title. -/
def titleHasYear (yo : Option Nat) (title : String) : Bool :=
  match yo with
  | none => false
  | some y => if y == 0 then false else strContains title (toString y)

/-! ### Attribute Resolver and Match Evaluator (_matches_filters) -/

/-- Whether any vehicle-specific filter is active (lines 321-332): the
explicit fields, with the override that an effective make or model forces
filtering.  Post guard the effective make and model are the explicit
fields. -/
def hasExplicitFilters (req : CarSearchRequest) : Bool :=
  (optStrTruthy req.make || optStrTruthy req.model || optNatTruthy req.year
    || req.max_miles.isSome || req.min_miles.isSome)
  || (optStrTruthy req.make || optStrTruthy req.model)

/-- The fetch decision (lines 347-358): always for a mileage bound, else on
a title miss for the requested make or model, else on a year filter absent
from the title. -/
def needsDetailsB (req : CarSearchRequest)
    (hasMake hasModel hasYear : Bool) : Bool :=
  if req.max_miles.isSome || req.min_miles.isSome then true
  else if (optStrTruthy req.make && !hasMake)
       || (optStrTruthy req.model && !hasModel) then true
  else if optNatTruthy req.year && !hasYear then true
  else false

/-- The fetch decision of one evaluation, computed from the request and the
listing title. -/
def needsD (req : CarSearchRequest) (l : CarListing) : Bool :=
  needsDetailsB req (titleHasMake req.make (strUpper l.title))
    (titleHasModel req.model (strUpper l.title))
    (titleHasYear req.year l.title)

/-- The raw attributes visible to the evaluator: present only when the
fetch was performed and returned the data.listing.vehicleAttributes path
with a truthy dictionary; every failure mode yields none (lines 360-376). -/
def attrsOf (req : CarSearchRequest) (f : String → FetchResult)
    (l : CarListing) : Option RawVehicleAttrs :=
  if needsD req l then
    match f l.listing_id with
    | FetchResult.attrs a => some a
    | _ => none
  else none

/-- Normalization of a fetched make or model string: a falsy value becomes
None, otherwise it is uppercased (lines 369-370). -/
def normUp : Option String → Option String
  | some s => if s.toList.isEmpty then none else some (strUpper s)
  | none => none

/-- The year match of lines 380-398: title hit first, then the coerced
attribute year, with a string comparison fallback on a parse failure; no
year filter always matches. -/
def yearMatchB (yo : Option Nat) (hasYear : Bool) (vy : Option IntOrStr) : Bool :=
  match yo with
  | none => true
  | some y =>
    if y == 0 then true
    else if hasYear then true
    else match vy with
      | none => false
      | some v =>
        if iosTruthy v then
          match coerceIOS v with
          | some k => decide (k = (y : Int))
          | none => iosToStr v == toString y
        else false

/-- The make match of lines 400-414: title evidence or attribute evidence,
with the Mercedes alias group applied to the attribute make as well. -/
def makeMatchB (mo : Option String) (hasMake : Bool)
    (vmake : Option String) : Bool :=
  match mo with
  | none => true
  | some s =>
    if s.toList.isEmpty then true
    else
      hasMake ||
        (match vmake with
         | some vm =>
           let mU := strUpper s
           if isMercAlias mU then
             strContains vm "MERCEDES" || strContains vm "BENZ"
           else strContains vm mU
         | none => false)

/-- The model match of lines 416-432: title evidence or attribute evidence,
with special handling of CLS models against the attribute model. -/
def modelMatchB (mo : Option String) (hasModel : Bool)
    (vmodel : Option String) : Bool :=
  match mo with
  | none => true
  | some s =>
    if s.toList.isEmpty then true
    else
      hasModel ||
        (match vmodel with
         | some vm =>
           let mU := strUpper s
           if strContains mU "CLS" then
             strContains vm "CLS63" || strContains vm "CLS 63"
               || strContains vm "CLS-63"
           else strContains vm mU
         | none => false)

/-- The mileage flag of lines 434-444: true when no mileage is present or
it cannot be parsed; a parsed mileage must respect both bounds. -/
def milesOkB (req : CarSearchRequest) (vm : Option IntOrStr) : Bool :=
  match vm with
  | none => true
  | some v =>
    match coerceIOS v with
    | none => true
    | some m =>
      !((match req.max_miles with
         | some mx => decide ((mx : Int) < m)
         | none => false)
        ||
        (match req.min_miles with
         | some mn => decide (m < (mn : Int))
         | none => false))

/-- The pydantic coercion of a numeric field inside
VehicleAttributes.from_dict: a truthy string is parsed with failure mapped
to None, a falsy leftover empty string makes the model constructor raise. -/
def pydNum : Option IntOrStr → Except Unit (Option Int)
  | none => Except.ok none
  | some (IntOrStr.int n) => Except.ok (some n)
  | some (IntOrStr.str s) =>
    if s.toList.isEmpty then Except.error () else Except.ok (pyIntParse s)

/-- VehicleAttributes.from_dict on a truthy attributes dictionary,
propagating the pydantic validation failure on an empty-string numeric
field. -/
def fromDictE (a : RawVehicleAttrs) : Except Unit VehicleAttributes :=
  match pydNum a.vehicleYear, pydNum a.vehicleMiles with
  | Except.ok y, Except.ok m =>
    Except.ok
      { year := y, make := a.vehicleMake, model := a.vehicleModel,
        miles := m, color := a.vehicleColor,
        transmission := a.vehicleTransmissionClean,
        fuel_type := a.vehicleFuelType, body := a.vehicleBody,
        drive_train := a.vehicleDriveTrain, vin := a.vehicleVin }
  | _, _ => Except.error ()

/-- An accepting return that attaches the resolved attributes to the
listing when a truthy attributes dictionary was fetched (lines 461 and
483-486), propagating a from_dict validation failure. -/
def acceptAttach (fr : Option RawVehicleAttrs) (l : CarListing) :
    Except Unit (Bool × Option VehicleAttributes) :=
  match fr with
  | some a =>
    match fromDictE a with
    | Except.ok va => Except.ok (true, some va)
    | Except.error e => Except.error e
  | none => Except.ok (true, l.vehicle_attributes)

/-- The decision tail of _matches_filters after the mileage gate (lines
458-489): the complete-attributes acceptance, the title fallback with the
lenient year rule, and the final rejection. -/
def postGate (yo : Option Nat) (mo mdo : Option String)
    (hasMake hasModel hasYear : Bool) (fr : Option RawVehicleAttrs)
    (l : CarListing) : Except Unit (Bool × Option VehicleAttributes) :=
  let vy := fr.bind (fun a => a.vehicleYear)
  let vmake := fr.bind (fun a => normUp a.vehicleMake)
  let vmodel := fr.bind (fun a => normUp a.vehicleModel)
  let ym := yearMatchB yo hasYear vy
  let mm := makeMatchB mo hasMake vmake
  let mdm := modelMatchB mdo hasModel vmodel
  if iosTruthyO vy && vmake.isSome && vmodel.isSome
      && (ym && mm && mdm) then acceptAttach fr l
  else if mm && mdm then
    if optNatTruthy yo && vy.isSome && !ym then
      Except.ok (false, l.vehicle_attributes)
    else acceptAttach fr l
  else Except.ok (false, l.vehicle_attributes)

/-- The mileage gate of lines 449-456: with a mileage bound requested and
a present mileage attribute that definitively fails the bounds, reject. -/
def gateB (req : CarSearchRequest) (f : String → FetchResult)
    (l : CarListing) : Bool :=
  (req.max_miles.isSome || req.min_miles.isSome)
    && ((attrsOf req f l).bind (fun a => a.vehicleMiles)).isSome
    && !(milesOkB req ((attrsOf req f l).bind (fun a => a.vehicleMiles)))

/-- The decision tail of one evaluation, with the title signals and
fetched attributes of this request and listing. -/
def postGateOf (req : CarSearchRequest) (f : String → FetchResult)
    (l : CarListing) : Except Unit (Bool × Option VehicleAttributes) :=
  postGate req.year req.make req.model
    (titleHasMake req.make (strUpper l.title))
    (titleHasModel req.model (strUpper l.title))
    (titleHasYear req.year l.title)
    (attrsOf req f l) l

/-- The body of _matches_filters after the parts exclusion and the
effective make and model guard, paired with the number of detail fetches
performed. -/
def mainEval (req : CarSearchRequest) (f : String → FetchResult)
    (l : CarListing) : Except Unit (Bool × Option VehicleAttributes) × Nat :=
  if !(hasExplicitFilters req) then
    (Except.ok (true, l.vehicle_attributes), 0)
  else
    ((if gateB req f l then Except.ok (false, l.vehicle_attributes)
      else postGateOf req f l),
     if needsD req l then 1 else 0)

/-- CarService._matches_filters as a whole, with the fetch count:
the parts exclusion comes first; with a missing or empty make or model the
code then calls request.get_query(), a method CarSearchRequest does not
define, so the evaluation raises AttributeError, modelled as the error
case. -/
def evalCore (req : CarSearchRequest) (f : String → FetchResult)
    (l : CarListing) : Except Unit (Bool × Option VehicleAttributes) × Nat :=
  if isPartB l.title then (Except.ok (false, l.vehicle_attributes), 0)
  else if !(optStrTruthy req.make) || !(optStrTruthy req.model) then
    (Except.error (), 0)
  else mainEval req f l

/-- The evaluation outcome of one listing: accept or reject decision plus
the attributes attached to the listing, or the raised exception. -/
def evalListing (req : CarSearchRequest) (f : String → FetchResult)
    (l : CarListing) : Except Unit (Bool × Option VehicleAttributes) :=
  (evalCore req f l).1

/-- The number of detail-fetch calls made while evaluating one listing. -/
def fetchCalls (req : CarSearchRequest) (f : String → FetchResult)
    (l : CarListing) : Nat :=
  (evalCore req f l).2

/-- The accept or reject decision alone. -/
def decisionOf (req : CarSearchRequest) (f : String → FetchResult)
    (l : CarListing) : Except Unit Bool :=
  Except.map Prod.fst (evalListing req f l)

/-- The mileage attribute the evaluator can resolve for a listing from the
fetch collaborator: the raw vehicleMiles of a returned attributes
dictionary, coerced to an integer, with absence and parse failure both
none. -/
def resolvedMiles (f : String → FetchResult) (l : CarListing) : Option Int :=
  match f l.listing_id with
  | FetchResult.attrs a =>
    match a.vehicleMiles with
    | some v => coerceIOS v
    | none => none
  | _ => none

/-- Violation of the requested mileage window by the resolved mileage. -/
def boundsViol (req : CarSearchRequest) (m : Int) : Bool :=
  (match req.max_miles with
   | some mx => decide ((mx : Int) < m)
   | none => false)
  ||
  (match req.min_miles with
   | some mn => decide (m < (mn : Int))
   | none => false)

/-- The resolved mileage exists and violates a requested bound. -/
def milesViolatesB (req : CarSearchRequest) (f : String → FetchResult)
    (l : CarListing) : Bool :=
  match resolvedMiles f l with
  | some m => boundsViol req m
  | none => false

/-- The numeric fields of a raw detail payload are not empty strings: an
empty-string vehicleYear or vehicleMiles survives the falsy-guarded
coercion of VehicleAttributes.from_dict and then makes the pydantic model
constructor raise inside an accept path. -/
def rawNumOk (a : RawVehicleAttrs) : Bool :=
  (match a.vehicleYear with
   | some (IntOrStr.str s) => !s.toList.isEmpty
   | _ => true)
  &&
  (match a.vehicleMiles with
   | some (IntOrStr.str s) => !s.toList.isEmpty
   | _ => true)

/-- The detail payload the collaborator would return for a listing id has
no empty-string numeric field (vacuously true when no attributes are
returned at all). -/
def fetchNumOk (f : String → FetchResult) (lid : String) : Bool :=
  match f lid with
  | FetchResult.attrs a => rawNumOk a
  | _ => true

/-- The relaxed criteria copy of search_cars lines 64-83: year and both
mileage bounds cleared, every other field copied. -/
def relaxRequest (r : CarSearchRequest) : CarSearchRequest :=
  { query := r.query, state := r.state, city := r.city, lat := r.lat,
    lon := r.lon, limit := r.limit, pickup_distance := r.pickup_distance,
    price_min := r.price_min, price_max := r.price_max, sort := r.sort,
    delivery := r.delivery, conditions := r.conditions, make := r.make,
    model := r.model, year := none, max_miles := none, min_miles := none }

/-- The request with only the mileage bounds cleared, used to state that
an unverifiable mileage constraint is not enforced. -/
def clearMileage (r : CarSearchRequest) : CarSearchRequest :=
  { r with max_miles := none, min_miles := none }

/-- Whether the evaluation of a listing accepted it. -/
def acceptedB (req : CarSearchRequest) (f : String → FetchResult)
    (l : CarListing) : Bool :=
  match evalListing req f l with
  | Except.ok (true, _) => true
  | _ => false

/-- The listing as it is appended to the result list: the attributes
possibly attached by the evaluator. -/
def decorate (req : CarSearchRequest) (f : String → FetchResult)
    (l : CarListing) : CarListing :=
  match evalListing req f l with
  | Except.ok (_, a) => { l with vehicle_attributes := a }
  | _ => l

/-- One filtering pass of search_cars (lines 44-56 and 86-93): evaluate
each listing in order, drop the ones whose evaluation raises, keep the
accepted ones with their attached attributes. -/
def strictPass (req : CarSearchRequest) (f : String → FetchResult) :
    List CarListing → List CarListing
  | [] => []
  | l :: ls =>
    match evalListing req f l with
    | Except.ok (true, a) =>
      { l with vehicle_attributes := a } :: strictPass req f ls
    | _ => strictPass req f ls

/-- CarService.search_cars restricted to the filtering core: the raw
listings are an input (the upstream retrieval is external); an empty raw
set returns empty at once; the relaxed pass is appended exactly when the
strict pass accepted nothing from a nonempty raw set. -/
def search_cars (req : CarSearchRequest) (f : String → FetchResult)
    (ls : List CarListing) : List CarListing :=
  if ls.isEmpty then []
  else
    let strict := strictPass req f ls
    if strict.length == 0 && ls.length > 0 then
      strict ++ strictPass (relaxRequest req) f ls
    else strict

/-! ### Structural lemmas about the evaluator -/

lemma evalCore_part (req : CarSearchRequest) (f : String → FetchResult)
    (l : CarListing) (h : isPartB l.title = true) :
    evalCore req f l = (Except.ok (false, l.vehicle_attributes), 0) := by
  simp [evalCore, h]

lemma evalCore_guard (req : CarSearchRequest) (f : String → FetchResult)
    (l : CarListing) (hp : isPartB l.title = false)
    (h : optStrTruthy req.make = false ∨ optStrTruthy req.model = false) :
    evalCore req f l = (Except.error (), 0) := by
  rcases h with h | h <;> simp [evalCore, hp, h]

lemma hef_of_make (req : CarSearchRequest)
    (h : optStrTruthy req.make = true) : hasExplicitFilters req = true := by
  simp [hasExplicitFilters, h]

lemma evalCore_main (req : CarSearchRequest) (f : String → FetchResult)
    (l : CarListing) (hp : isPartB l.title = false)
    (hmk : optStrTruthy req.make = true) (hmd : optStrTruthy req.model = true) :
    evalCore req f l = mainEval req f l := by
  simp [evalCore, hp, hmk, hmd]

lemma evalListing_eq_postGate (req : CarSearchRequest) (f : String → FetchResult)
    (l : CarListing) (hp : isPartB l.title = false)
    (hmk : optStrTruthy req.make = true) (hmd : optStrTruthy req.model = true)
    (hg : gateB req f l = false) :
    evalListing req f l = postGateOf req f l := by
  simp [evalListing, evalCore_main req f l hp hmk hmd, mainEval,
    hef_of_make req hmk, hg]

lemma evalListing_gate_true (req : CarSearchRequest) (f : String → FetchResult)
    (l : CarListing) (hp : isPartB l.title = false)
    (hmk : optStrTruthy req.make = true) (hmd : optStrTruthy req.model = true)
    (hg : gateB req f l = true) :
    evalListing req f l = Except.ok (false, l.vehicle_attributes) := by
  simp [evalListing, evalCore_main req f l hp hmk hmd, mainEval,
    hef_of_make req hmk, hg]

lemma needsDetailsB_bounds (req : CarSearchRequest) (A B Y : Bool)
    (hb : (req.max_miles.isSome || req.min_miles.isSome) = true) :
    needsDetailsB req A B Y = true := by
  simp [needsDetailsB, hb]

lemma needsD_bounds (req : CarSearchRequest) (l : CarListing)
    (hb : (req.max_miles.isSome || req.min_miles.isSome) = true) :
    needsD req l = true := by
  simp [needsD, needsDetailsB_bounds req _ _ _ hb]

lemma gateB_false_of_none (req : CarSearchRequest) (f : String → FetchResult)
    (l : CarListing) (h : resolvedMiles f l = none) : gateB req f l = false := by
  unfold gateB attrsOf
  cases hnd : needsD req l
  · simp
  · unfold resolvedMiles at h
    cases hf : f l.listing_id with
    | fetchFailed => simp
    | noPayload => simp
    | noAttrs => simp
    | attrs a =>
      cases hv : a.vehicleMiles with
      | none => simp [hv]
      | some v =>
        have hc : coerceIOS v = none := by
          rw [hf] at h
          simpa [hv] using h
        simp [hv, milesOkB, hc]

lemma gateB_true_of_viol (req : CarSearchRequest) (f : String → FetchResult)
    (l : CarListing) (hb : (req.max_miles.isSome || req.min_miles.isSome) = true)
    (h : milesViolatesB req f l = true) : gateB req f l = true := by
  unfold milesViolatesB resolvedMiles at h
  cases hf : f l.listing_id with
  | fetchFailed => rw [hf] at h; simp at h
  | noPayload => rw [hf] at h; simp at h
  | noAttrs => rw [hf] at h; simp at h
  | attrs a =>
    cases hv : a.vehicleMiles with
    | none =>
      rw [hf] at h
      simp [hv] at h
    | some v =>
      cases hc : coerceIOS v with
      | none =>
        rw [hf] at h
        simp [hv, hc] at h
      | some m =>
        have hbv : boundsViol req m = true := by
          rw [hf] at h
          simpa [hv, hc] using h
        unfold gateB attrsOf
        rw [needsD_bounds req l hb]
        simp [hf, hv, milesOkB, hc, hb]
        simpa [boundsViol] using hbv

lemma makeMatchB_of_has (mo : Option String) (vmake : Option String) :
    makeMatchB mo true vmake = true := by
  cases mo with
  | none => rfl
  | some s =>
    by_cases hs : s.toList.isEmpty <;> simp [makeMatchB, hs]

lemma modelMatchB_of_has (mo : Option String) (vmodel : Option String) :
    modelMatchB mo true vmodel = true := by
  cases mo with
  | none => rfl
  | some s =>
    by_cases hs : s.toList.isEmpty <;> simp [modelMatchB, hs]

lemma yearMatchB_of (yo : Option Nat) (Y : Bool) (vy : Option IntOrStr)
    (hY : optNatTruthy yo = true → Y = true) : yearMatchB yo Y vy = true := by
  cases yo with
  | none => rfl
  | some y =>
    by_cases h0 : y = 0
    · simp [yearMatchB, h0]
    · have hy : Y = true := hY (by simp [optNatTruthy, h0])
      simp [yearMatchB, h0, hy]

lemma acceptAttach_fst_ne_false (fr : Option RawVehicleAttrs) (l : CarListing) :
    Except.map Prod.fst (acceptAttach fr l) ≠ Except.ok false := by
  cases fr with
  | none => simp [acceptAttach, Except.map]
  | some a =>
    cases hfd : fromDictE a <;> simp [acceptAttach, hfd, Except.map]

lemma postGate_fst_ne_false (yo : Option Nat) (mo mdo : Option String) (Y : Bool)
    (fr : Option RawVehicleAttrs) (l : CarListing)
    (hY : optNatTruthy yo = true → Y = true) :
    Except.map Prod.fst (postGate yo mo mdo true true Y fr l) ≠ Except.ok false := by
  unfold postGate
  simp only [makeMatchB_of_has, modelMatchB_of_has,
    yearMatchB_of yo Y _ hY, Bool.and_true, Bool.true_and, Bool.not_true,
    Bool.and_false, if_false, Bool.false_and]
  split
  · exact acceptAttach_fst_ne_false fr l
  · exact acceptAttach_fst_ne_false fr l

lemma postGate_none (yo : Option Nat) (mo mdo : Option String) (Y : Bool)
    (l : CarListing) :
    postGate yo mo mdo true true Y none l
      = Except.ok (true, l.vehicle_attributes) := by
  unfold postGate
  simp [makeMatchB_of_has, modelMatchB_of_has, iosTruthyO, acceptAttach]

lemma postGateOf_decision_ne_false (req : CarSearchRequest)
    (f : String → FetchResult) (l : CarListing)
    (hA : titleHasMake req.make (strUpper l.title) = true)
    (hB : titleHasModel req.model (strUpper l.title) = true)
    (hY : optNatTruthy req.year = true → titleHasYear req.year l.title = true) :
    Except.map Prod.fst (postGateOf req f l) ≠ Except.ok false := by
  unfold postGateOf
  rw [hA, hB]
  exact postGate_fst_ne_false req.year req.make req.model _ _ l hY

lemma pydNum_isOk (v : Option IntOrStr)
    (h : (match v with
          | some (IntOrStr.str s) => !s.toList.isEmpty
          | _ => true) = true) :
    ∃ y, pydNum v = Except.ok y := by
  cases v with
  | none => exact ⟨none, rfl⟩
  | some w =>
    cases w with
    | int n => exact ⟨some n, rfl⟩
    | str s =>
      have hs : s.toList.isEmpty = false := by simpa using h
      refine ⟨pyIntParse s, ?_⟩
      simp only [pydNum]
      rw [hs]
      simp

lemma acceptAttach_ok_of_numOk (fr : Option RawVehicleAttrs) (l : CarListing)
    (hnum : match fr with | some a => rawNumOk a = true | none => True) :
    ∃ va, acceptAttach fr l = Except.ok (true, va) := by
  cases fr with
  | none => exact ⟨l.vehicle_attributes, rfl⟩
  | some a =>
    have h2 : rawNumOk a = true := hnum
    obtain ⟨hy, hm⟩ := Bool.and_eq_true_iff.mp h2
    obtain ⟨y, hyeq⟩ := pydNum_isOk a.vehicleYear hy
    obtain ⟨m, hmeq⟩ := pydNum_isOk a.vehicleMiles hm
    refine ⟨some (VehicleAttributes.mk y a.vehicleMake a.vehicleModel m
      a.vehicleColor a.vehicleTransmissionClean a.vehicleFuelType
      a.vehicleBody a.vehicleDriveTrain a.vehicleVin), ?_⟩
    simp [acceptAttach, fromDictE, hyeq, hmeq]

lemma postGate_ok_true (yo : Option Nat) (mo mdo : Option String) (Y : Bool)
    (fr : Option RawVehicleAttrs) (l : CarListing)
    (hY : optNatTruthy yo = true → Y = true)
    (hnum : match fr with | some a => rawNumOk a = true | none => True) :
    Except.map Prod.fst (postGate yo mo mdo true true Y fr l) = Except.ok true := by
  obtain ⟨va, hacc⟩ := acceptAttach_ok_of_numOk fr l hnum
  unfold postGate
  simp only [makeMatchB_of_has, modelMatchB_of_has,
    yearMatchB_of yo Y _ hY, Bool.and_true, Bool.true_and, Bool.not_true,
    Bool.and_false, if_false, Bool.false_and]
  split
  · simp [hacc, Except.map]
  · simp [hacc, Except.map]

lemma attrsOf_numOk (req : CarSearchRequest) (f : String → FetchResult)
    (l : CarListing) (h : fetchNumOk f l.listing_id = true) :
    match attrsOf req f l with
    | some a => rawNumOk a = true
    | none => True := by
  unfold attrsOf
  cases hnd : needsD req l with
  | false => simp
  | true =>
    unfold fetchNumOk at h
    cases hf : f l.listing_id with
    | fetchFailed => simp
    | noPayload => simp
    | noAttrs => simp
    | attrs a =>
      rw [hf] at h
      simpa using h

lemma gateB_false_of_noViol (req : CarSearchRequest) (f : String → FetchResult)
    (l : CarListing) (h : milesViolatesB req f l = false) :
    gateB req f l = false := by
  unfold gateB attrsOf
  cases hnd : needsD req l
  · simp
  · unfold milesViolatesB resolvedMiles at h
    cases hf : f l.listing_id with
    | fetchFailed => simp
    | noPayload => simp
    | noAttrs => simp
    | attrs a =>
      cases hv : a.vehicleMiles with
      | none => simp [hv]
      | some v =>
        cases hc : coerceIOS v with
        | none => simp [hv, milesOkB, hc]
        | some m =>
          have hbv : boundsViol req m = false := by
            rw [hf] at h
            simpa [hv, hc] using h
          simp [hv, milesOkB, hc]
          intro h2
          simpa [boundsViol] using hbv

lemma gateB_clearMileage (req : CarSearchRequest) (f : String → FetchResult)
    (l : CarListing) : gateB (clearMileage req) f l = false := by
  simp [gateB, clearMileage]

lemma postGateOf_none_ok (req : CarSearchRequest)
    (f : String → FetchResult) (l : CarListing)
    (hattr : attrsOf req f l = none)
    (hA : titleHasMake req.make (strUpper l.title) = true)
    (hB : titleHasModel req.model (strUpper l.title) = true) :
    postGateOf req f l = Except.ok (true, l.vehicle_attributes) := by
  unfold postGateOf
  rw [hA, hB, hattr]
  exact postGate_none req.year req.make req.model _ l

lemma postGateOf_ok_true (req : CarSearchRequest) (f : String → FetchResult)
    (l : CarListing)
    (hA : titleHasMake req.make (strUpper l.title) = true)
    (hB : titleHasModel req.model (strUpper l.title) = true)
    (hY : optNatTruthy req.year = true → titleHasYear req.year l.title = true)
    (hnum : fetchNumOk f l.listing_id = true) :
    Except.map Prod.fst (postGateOf req f l) = Except.ok true := by
  unfold postGateOf
  rw [hA, hB]
  exact postGate_ok_true req.year req.make req.model _ _ l hY
    (attrsOf_numOk req f l hnum)

lemma clearMileage_make (r : CarSearchRequest) :
    (clearMileage r).make = r.make := rfl

lemma clearMileage_model (r : CarSearchRequest) :
    (clearMileage r).model = r.model := rfl

lemma clearMileage_year (r : CarSearchRequest) :
    (clearMileage r).year = r.year := rfl

lemma clearMileage_max (r : CarSearchRequest) :
    (clearMileage r).max_miles = none := rfl

lemma clearMileage_min (r : CarSearchRequest) :
    (clearMileage r).min_miles = none := rfl

/-! ### Lemmas about the passes and the make scan -/

lemma strictPass_eq_filterMap (req : CarSearchRequest) (f : String → FetchResult) :
    ∀ ls : List CarListing,
      strictPass req f ls = (ls.filter (acceptedB req f)).map (decorate req f) := by
  intro ls
  induction ls with
  | nil => rfl
  | cons l t ih =>
    cases h : evalListing req f l with
    | error e =>
      simp [strictPass, h, List.filter, acceptedB, ih]
    | ok p =>
      cases p with
      | mk b a =>
        cases b with
        | false => simp [strictPass, h, List.filter, acceptedB, ih]
        | true =>
          simp [strictPass, h, List.filter, acceptedB, ih, decorate]

lemma acceptedB_false_of_guard (req : CarSearchRequest) (f : String → FetchResult)
    (h : optStrTruthy req.make = false ∨ optStrTruthy req.model = false)
    (l : CarListing) : acceptedB req f l = false := by
  cases hp : isPartB l.title with
  | true => simp [acceptedB, evalListing, evalCore_part req f l hp]
  | false => simp [acceptedB, evalListing, evalCore_guard req f l hp h]

lemma strictPass_nil_of_guard (req : CarSearchRequest) (f : String → FetchResult)
    (h : optStrTruthy req.make = false ∨ optStrTruthy req.model = false)
    (ls : List CarListing) : strictPass req f ls = [] := by
  rw [strictPass_eq_filterMap]
  have : ls.filter (acceptedB req f) = [] := by
    apply List.filter_eq_nil_iff.mpr
    intro l _
    simp [acceptedB_false_of_guard req f h l]
  simp [this]

lemma find?_first {α : Type} (p : α → Bool) :
    ∀ (l : List α) (x : α), l.find? p = some x →
      p x = true ∧ ∃ l1 l2, l = l1 ++ x :: l2 ∧ ∀ y ∈ l1, p y = false := by
  intro l
  induction l with
  | nil => intro x hx; simp [List.find?] at hx
  | cons a t ih =>
    intro x hx
    cases hpa : p a with
    | true =>
      rw [List.find?_cons_of_pos _ hpa] at hx
      obtain rfl : a = x := by injection hx
      exact ⟨hpa, [], t, rfl, by intro y hy; simp at hy⟩
    | false =>
      rw [List.find?_cons_of_neg _ (by simp [hpa])] at hx
      obtain ⟨hpx, l1, l2, rfl, hall⟩ := ih x hx
      exact ⟨hpx, a :: l1, l2, rfl, by
        intro y hy
        rcases List.mem_cons.mp hy with rfl | hy2
        · exact hpa
        · exact hall y hy2⟩

lemma find?_of_any {α : Type} (p : α → Bool) :
    ∀ l : List α, l.any p = true → ∃ x, l.find? p = some x := by
  intro l
  induction l with
  | nil => intro h; simp at h
  | cons a t ih =>
    intro h
    cases hpa : p a with
    | true => exact ⟨a, List.find?_cons_of_pos _ hpa⟩
    | false =>
      have ht : t.any p = true := by
        simpa [List.any_cons, hpa] using h
      obtain ⟨x, hx⟩ := ih ht
      exact ⟨x, by rw [List.find?_cons_of_neg _ (by simp [hpa])]; exact hx⟩

lemma extractKeywords_fst (q : String) :
    (extractKeywords q).1
      = commonMakes.find? (fun m => strContains (strUpper q) m) := rfl

/-! ### Spec-side definition for the make-extraction refinement claim -/

/-- Index of the first occurrence of needle in hay, scanning positions left
to right. -/
def firstOccurAux (needle : List Char) : List Char → Nat → Option Nat
  | [], i => if needle.isEmpty then some i else none
  | c :: t, i =>
    if needle.isPrefixOf (c :: t) then some i else firstOccurAux needle t (i + 1)

/-- Position of the first occurrence of needle inside hay, none when
absent. -/
def firstOccurIdx (hay needle : String) : Option Nat :=
  firstOccurAux needle.toList hay.toList 0

/-- Modelled from the spec wording of the Keyword Extractor, for comparison
with the implementation: the make whose textual occurrence in the
uppercased query comes first, first textual occurrence wins. -/
def specEarliestMake (q : String) : Option String :=
  let qU := strUpper q
  let occ := commonMakes.filterMap
    (fun m => (firstOccurIdx qU m).map (fun i => (i, m)))
  match occ with
  | [] => none
  | x :: xs => some ((xs.foldl (fun b y => if y.1 < b.1 then y else b) x).2)

/-! ### Concrete fixtures used by the claim theorems -/

/-- Detail-fetch collaborator whose every call raises. -/
def fetchFail : String → FetchResult := fun _ => FetchResult.fetchFailed

/-- The scenario listing of the CLS63 test case. -/
def listingCLS : CarListing :=
  { listing_id := "cls-1", title := "2014 Mercedes-Benz CLS 63 AMG" }

/-- A plain sedan listing with no parts keyword in the title. -/
def listingCamry : CarListing :=
  { listing_id := "cam-1", title := "2019 Toyota Camry SE" }

/-- A parts listing whose title also names the CLS63 model. -/
def listingPart : CarListing :=
  { listing_id := "part-1", title := "OEM Bumper CLS63" }

/-- A second plain listing for the civic fixtures. -/
def listingCivic : CarListing :=
  { listing_id := "civ-1", title := "2020 Honda Civic LX" }

/-! ### Claim theorems -/

/-- Claim C1 (code bug): for the query CLS63 Mercedes 2014 against the
title 2014 Mercedes-Benz CLS 63 AMG with a failing detail fetch, the
extractor does yield make MERCEDES and model CLS63 and the title does carry
the make alias and the 2014 substring, but the title model check is false
because the variant generation of the requested CLS63 can only remove or
swap separators, never insert the space of CLS 63; moreover the evaluator
never reaches any of these checks for this criteria: with no explicit make
and model it calls request.get_query(), a method CarSearchRequest does not
define, so it raises instead of accepting. -/
theorem c1_cls63_scenario :
    extractKeywords "CLS63 Mercedes 2014" = (some "MERCEDES", some "CLS63")
    ∧ titleHasMake (some "MERCEDES") (strUpper listingCLS.title) = true
    ∧ titleHasYear (some 2014) listingCLS.title = true
    ∧ titleHasModel (some "CLS63") (strUpper listingCLS.title) = false
    ∧ evalListing { query := some "CLS63 Mercedes 2014" } fetchFail listingCLS
        = Except.error () := by
  refine ⟨by decide, by decide, by decide, by decide, by decide⟩

/-- Claim C2 (code bug): a criteria with no constraints at all should be
the no-filter mode in which every non-part listing passes, but evaluating
any non-part listing raises at the undefined request.get_query() call and
the filtering loop then drops it, so nothing is accepted. -/
theorem c2_nofilter_mode :
    isPartB listingCamry.title = false
    ∧ evalListing { } fetchFail listingCamry = Except.error ()
    ∧ search_cars { } fetchFail [listingCamry] = [] := by
  refine ⟨by decide, by decide, by decide⟩

/-- Claim C3 (code bug): the spec propagation policy says the core raises
no errors of its own, yet for the pre-validated criteria with only the
query field set the evaluation of a plain non-part listing raises at the
undefined request.get_query() call. -/
theorem c3_error_free_policy :
    isPartB listingCivic.title = false
    ∧ evalListing { query := some "car" } fetchFail listingCivic
        = Except.error () := by
  refine ⟨by decide, by decide⟩

/-- Claim C4 (confirmed): for every request whose explicit make or model
is absent or empty and every fetch collaborator, evaluating any non-part
listing raises (the undefined request.get_query() call) and, for every raw
listing sequence whatsoever (parts listings included), both the strict and
the relaxed pass accept nothing, so the filtering core returns the empty
result set: the relaxed criteria preserve make and model, so the relaxed
pass raises or rejects identically. -/
theorem c4_missing_get_query (req : CarSearchRequest) (f : String → FetchResult)
    (h : optStrTruthy req.make = false ∨ optStrTruthy req.model = false) :
    (∀ l : CarListing, isPartB l.title = false →
      evalListing req f l = Except.error ())
    ∧ (∀ ls : List CarListing, search_cars req f ls = []) := by
  constructor
  · intro l hp
    simp [evalListing, evalCore_guard req f l hp h]
  · intro ls
    have hs : strictPass req f ls = [] := strictPass_nil_of_guard req f h ls
    have hr : strictPass (relaxRequest req) f ls = [] :=
      strictPass_nil_of_guard (relaxRequest req) f h ls
    unfold search_cars
    cases ls with
    | nil => simp
    | cons a t => simp [hs, hr]

/-- Witness for claim C4 at a concrete request with a make but no model,
applied to a concrete non-part listing and a concrete raw sequence. -/
theorem c4_missing_get_query_witness :
    evalListing { make := some "Toyota", query := some "Toyota Camry" }
        fetchFail listingCamry = Except.error ()
    ∧ search_cars { make := some "Toyota", query := some "Toyota Camry" }
        fetchFail [listingCamry, listingPart] = [] :=
  ⟨(c4_missing_get_query _ fetchFail (Or.inr (by decide))).1
      listingCamry (by decide),
   (c4_missing_get_query _ fetchFail (Or.inr (by decide))).2
      [listingCamry, listingPart]⟩

/-- Claim C5 (confirmed): the relaxed pass runs exactly when the strict
pass accepted nothing from a nonempty raw set, the relaxed criteria clear
year and both mileage bounds and preserve every other field, at most one
relaxation is performed, and when both passes accept nothing the result is
the empty list. -/
theorem c5_relaxation (req : CarSearchRequest) (f : String → FetchResult)
    (ls : List CarListing) :
    search_cars req f ls
      = (if (strictPass req f ls).isEmpty && !ls.isEmpty then
           strictPass (relaxRequest req) f ls
         else strictPass req f ls)
    ∧ (relaxRequest req).year = none
    ∧ (relaxRequest req).max_miles = none
    ∧ (relaxRequest req).min_miles = none
    ∧ (relaxRequest req).query = req.query
    ∧ (relaxRequest req).make = req.make
    ∧ (relaxRequest req).model = req.model
    ∧ (relaxRequest req).state = req.state
    ∧ (relaxRequest req).city = req.city
    ∧ (relaxRequest req).lat = req.lat
    ∧ (relaxRequest req).lon = req.lon
    ∧ (relaxRequest req).limit = req.limit
    ∧ (relaxRequest req).pickup_distance = req.pickup_distance
    ∧ (relaxRequest req).price_min = req.price_min
    ∧ (relaxRequest req).price_max = req.price_max
    ∧ (relaxRequest req).sort = req.sort
    ∧ (relaxRequest req).delivery = req.delivery
    ∧ (relaxRequest req).conditions = req.conditions := by
  refine ⟨?_, rfl, rfl, rfl, rfl, rfl, rfl, rfl, rfl, rfl, rfl, rfl, rfl,
    rfl, rfl, rfl, rfl, rfl⟩
  unfold search_cars
  cases ls with
  | nil => simp [strictPass]
  | cons a t =>
    cases hs : strictPass req f (a :: t) with
    | nil => simp [hs]
    | cons b u => simp [hs]

/-- Claim C7 (confirmed): a listing whose title contains a parts keyword is
rejected unconditionally, before any other check, whatever the criteria and
the fetch collaborator. -/
theorem c7_parts_reject (req : CarSearchRequest) (f : String → FetchResult)
    (l : CarListing) (h : isPartB l.title = true) :
    evalListing req f l = Except.ok (false, l.vehicle_attributes) := by
  simp [evalListing, evalCore_part req f l h]

/-- Witness for claim C7: the OEM Bumper CLS63 listing is rejected even
when model and query both say CLS63. -/
theorem c7_parts_reject_witness :
    isPartB listingPart.title = true
    ∧ evalListing
        { query := some "CLS63", make := some "Mercedes", model := some "CLS63" }
        fetchFail listingPart = Except.ok (false, none) :=
  ⟨by decide,
   c7_parts_reject _ fetchFail listingPart (by decide)⟩

/-- Claim C10 (confirmed): each pass is the order-preserving filter of the
raw listing sequence by the accept decision, each kept element only
decorated with its resolved attributes; the core never reorders. -/
theorem c10_order (req : CarSearchRequest) (f : String → FetchResult)
    (ls : List CarListing) :
    strictPass req f ls = (ls.filter (acceptedB req f)).map (decorate req f) :=
  strictPass_eq_filterMap req f ls

/-- Counterexample to claim C6 as stated: for the criteria with only a
maximal mileage bound, no resolvable mileage and a matching non-part
listing, the claim promises acceptance, but the evaluation raises at the
undefined request.get_query() call because make and model are absent, and
the listing is dropped. -/
theorem c6_mileage_cex :
    (({ max_miles := some 50000 } : CarSearchRequest)).max_miles.isSome = true
    ∧ resolvedMiles fetchFail listingCamry = none
    ∧ isPartB listingCamry.title = false
    ∧ evalListing { max_miles := some 50000 } fetchFail listingCamry
        = Except.error () := by
  refine ⟨by decide, by decide, by decide, by decide⟩

/-- Claim C6 (corrected): for criteria whose make and model are both
present, with a mileage bound, against a detail payload with no
empty-string numeric field: a resolved, parsable mileage that violates the
bound forces rejection, and whenever no resolved mileage violates the
bound (mileage absent, unparsable, or within bounds) the accept or reject
decision is identical to that of the same criteria with both mileage
bounds cleared, so the bound alone never rejects a listing it cannot
verify. -/
theorem c6_mileage_amended (req : CarSearchRequest) (f : String → FetchResult)
    (l : CarListing)
    (hmk : optStrTruthy req.make = true) (hmd : optStrTruthy req.model = true)
    (hb : (req.max_miles.isSome || req.min_miles.isSome) = true)
    (hnum : fetchNumOk f l.listing_id = true) :
    (milesViolatesB req f l = true → decisionOf req f l = Except.ok false)
    ∧ (milesViolatesB req f l = false →
        decisionOf req f l = decisionOf (clearMileage req) f l) := by
  constructor
  · intro hviol
    cases hp : isPartB l.title with
    | true =>
      simp [decisionOf, evalListing, evalCore_part req f l hp, Except.map]
    | false =>
      have hg := gateB_true_of_viol req f l hb hviol
      simp [decisionOf, evalListing_gate_true req f l hp hmk hmd hg, Except.map]
  · intro hnv
    cases hp : isPartB l.title with
    | true =>
      have h1 : decisionOf req f l = Except.ok false := by
        simp [decisionOf, evalListing, evalCore_part req f l hp, Except.map]
      have h2 : decisionOf (clearMileage req) f l = Except.ok false := by
        simp [decisionOf, evalListing, evalCore_part (clearMileage req) f l hp,
          Except.map]
      rw [h1, h2]
    | false =>
      have hmk2 : optStrTruthy (clearMileage req).make = true := hmk
      have hmd2 : optStrTruthy (clearMileage req).model = true := hmd
      have hg1 : gateB req f l = false := gateB_false_of_noViol req f l hnv
      have hg2 : gateB (clearMileage req) f l = false := gateB_clearMileage req f l
      have e1 : evalListing req f l = postGateOf req f l :=
        evalListing_eq_postGate req f l hp hmk hmd hg1
      have e2 : evalListing (clearMileage req) f l
          = postGateOf (clearMileage req) f l :=
        evalListing_eq_postGate (clearMileage req) f l hp hmk2 hmd2 hg2
      cases hnd : needsD (clearMileage req) l with
      | true =>
        have hndL : needsD req l = true := needsD_bounds req l hb
        have hattr : attrsOf (clearMileage req) f l = attrsOf req f l := by
          simp [attrsOf, hnd, hndL]
        have heq : postGateOf (clearMileage req) f l = postGateOf req f l := by
          unfold postGateOf
          rw [hattr]
          rfl
        simp [decisionOf, e1, e2, heq]
      | false =>
        have hA : titleHasMake req.make (strUpper l.title) = true := by
          by_contra hAc
          have hA2 : titleHasMake req.make (strUpper l.title) = false := by
            simpa using hAc
          have hT : needsD (clearMileage req) l = true := by
            simp [needsD, needsDetailsB, clearMileage_make, clearMileage_model,
              clearMileage_year, clearMileage_max, clearMileage_min, hmk, hA2]
          rw [hnd] at hT
          exact absurd hT Bool.false_ne_true
        have hB : titleHasModel req.model (strUpper l.title) = true := by
          by_contra hBc
          have hB2 : titleHasModel req.model (strUpper l.title) = false := by
            simpa using hBc
          have hT : needsD (clearMileage req) l = true := by
            simp [needsD, needsDetailsB, clearMileage_make, clearMileage_model,
              clearMileage_year, clearMileage_max, clearMileage_min, hmd, hB2]
          rw [hnd] at hT
          exact absurd hT Bool.false_ne_true
        have hY : optNatTruthy req.year = true →
            titleHasYear req.year l.title = true := by
          intro hyt
          by_contra hYc
          have hY2 : titleHasYear req.year l.title = false := by
            simpa using hYc
          have hT : needsD (clearMileage req) l = true := by
            simp [needsD, needsDetailsB, clearMileage_make, clearMileage_model,
              clearMileage_year, clearMileage_max, clearMileage_min,
              hmk, hmd, hA, hB, hyt, hY2]
          rw [hnd] at hT
          exact absurd hT Bool.false_ne_true
        have hattr2 : attrsOf (clearMileage req) f l = none := by
          simp [attrsOf, hnd]
        have e3 : postGateOf (clearMileage req) f l
            = Except.ok (true, l.vehicle_attributes) :=
          postGateOf_none_ok (clearMileage req) f l hattr2 hA hB
        have hleft : Except.map Prod.fst (postGateOf req f l) = Except.ok true :=
          postGateOf_ok_true req f l hA hB hY hnum
        unfold decisionOf
        rw [e1, e2, e3, hleft]
        simp [Except.map]

/-- Criteria of the C6 witness: make and model present with a maximal
mileage bound. -/
def reqC6w : CarSearchRequest :=
  { make := some "Toyota", model := some "Camry", max_miles := some 50000 }

/-- Detail fetch of the C6 witness: an attributes payload whose mileage
string cannot be parsed. -/
def fetchBadMiles : String → FetchResult :=
  fun _ => FetchResult.attrs { vehicleMiles := some (IntOrStr.str "unknown") }

/-- Witness for claim C6: a Toyota Camry criteria with a mileage bound and
a detail payload whose nonempty mileage string cannot be parsed. -/
theorem c6_mileage_witness :
    (milesViolatesB reqC6w fetchBadMiles listingCamry = true →
      decisionOf reqC6w fetchBadMiles listingCamry = Except.ok false)
    ∧ (milesViolatesB reqC6w fetchBadMiles listingCamry = false →
        decisionOf reqC6w fetchBadMiles listingCamry
          = decisionOf (clearMileage reqC6w) fetchBadMiles listingCamry) :=
  c6_mileage_amended reqC6w fetchBadMiles listingCamry
    (by decide) (by decide) (by decide) (by decide)

/-- Detail fetch returning a payload whose vehicleMiles is the empty
string: falsy, so from_dict leaves it uncoerced and the pydantic
constructor raises. -/
def fetchEmptyMiles : String → FetchResult :=
  fun _ => FetchResult.attrs { vehicleMiles := some (IntOrStr.str "") }

/-- An empty-string vehicleMiles (unparsable, so the resolved mileage is
absent) makes the decisions of a bounded and a bounds-cleared criteria
diverge on a fully title-matching listing: under the bound the fetch is
forced and the accept path raises in from_dict, dropping the listing,
while with the bounds cleared no fetch happens and the listing is
accepted.  The payload hypothesis on the mileage characterization is
therefore indispensable. -/
lemma emptyMilesPayloadDivergence :
    resolvedMiles fetchEmptyMiles listingCamry = none
    ∧ decisionOf reqC6w fetchEmptyMiles listingCamry = Except.error ()
    ∧ decisionOf (clearMileage reqC6w) fetchEmptyMiles listingCamry
        = Except.ok true := by
  refine ⟨by decide, by decide, by decide⟩

/-- Counterexample to claim C8 as stated: a criteria specifying only a
minimal mileage bound should always fetch, but the evaluation of a plain
non-part listing raises before the fetch decision (make and model absent,
undefined request.get_query()), so no fetch is performed. -/
theorem c8_fetch_cex :
    (({ min_miles := some 1000 } : CarSearchRequest)).min_miles.isSome = true
    ∧ isPartB listingCivic.title = false
    ∧ fetchCalls { min_miles := some 1000 } fetchFail listingCivic = 0 := by
  refine ⟨by decide, by decide, by decide⟩

/-- Claim C8 (corrected): the fetch happens at most once per listing per
pass; with every constraint absent no fetch happens; and for criteria whose
make and model are both present, on a non-part listing the fetch happens
exactly when a mileage bound is specified, or the title misses the
requested make or model, or a year is requested whose decimal string is not
in the title. -/
theorem c8_fetch_amended (req : CarSearchRequest) (f : String → FetchResult)
    (l : CarListing) :
    fetchCalls req f l ≤ 1
    ∧ (req.make = none → req.model = none → req.year = none →
        req.max_miles = none → req.min_miles = none → fetchCalls req f l = 0)
    ∧ (optStrTruthy req.make = true → optStrTruthy req.model = true →
        isPartB l.title = false →
        (fetchCalls req f l = 1 ↔
          (req.max_miles.isSome || req.min_miles.isSome
            || !(titleHasMake req.make (strUpper l.title))
            || !(titleHasModel req.model (strUpper l.title))
            || (optNatTruthy req.year && !(titleHasYear req.year l.title)))
            = true)) := by
  refine ⟨?_, ?_, ?_⟩
  · cases hp : isPartB l.title with
    | true => simp [fetchCalls, evalCore_part req f l hp]
    | false =>
      by_cases hmk : optStrTruthy req.make = true
      · by_cases hmd : optStrTruthy req.model = true
        · rw [fetchCalls, evalCore_main req f l hp hmk hmd]
          unfold mainEval
          cases hh : hasExplicitFilters req <;> cases hd : needsD req l <;>
            simp [hh, hd]
        · have hmd2 : optStrTruthy req.model = false := by simpa using hmd
          simp [fetchCalls, evalCore_guard req f l hp (Or.inr hmd2)]
      · have hmk2 : optStrTruthy req.make = false := by simpa using hmk
        simp [fetchCalls, evalCore_guard req f l hp (Or.inl hmk2)]
  · intro h1 h2 h3 h4 h5
    cases hp : isPartB l.title with
    | true => simp [fetchCalls, evalCore_part req f l hp]
    | false =>
      have hm : optStrTruthy req.make = false := by simp [h1, optStrTruthy]
      simp [fetchCalls, evalCore_guard req f l hp (Or.inl hm)]
  · intro hmk hmd hp
    rw [fetchCalls, evalCore_main req f l hp hmk hmd]
    unfold mainEval
    rw [hef_of_make req hmk]
    cases hA : titleHasMake req.make (strUpper l.title) <;>
    cases hB : titleHasModel req.model (strUpper l.title) <;>
    cases hY : titleHasYear req.year l.title <;>
    cases hbd : (req.max_miles.isSome || req.min_miles.isSome) <;>
    cases hyt : optNatTruthy req.year <;>
    simp [needsD, needsDetailsB, hA, hB, hY, hbd, hmk, hmd, hyt]

/-- Criteria of the C8 witness: make and model present with a maximal
mileage bound. -/
def reqC8w : CarSearchRequest :=
  { make := some "Honda", model := some "Civic", max_miles := some 30000 }

/-- Witness for claim C8: a Honda Civic criteria with a mileage bound on a
matching non-part listing fetches exactly once. -/
theorem c8_fetch_witness :
    fetchCalls reqC8w fetchFail listingCivic ≤ 1
    ∧ fetchCalls reqC8w fetchFail listingCivic = 1 :=
  ⟨(c8_fetch_amended reqC8w fetchFail listingCivic).1,
   ((c8_fetch_amended reqC8w fetchFail listingCivic).2.2
      (by decide) (by decide) (by decide)).mpr (by decide)⟩

/-- Counterexample to claim C9 as stated: in the query HONDA BENZ the make
whose textual occurrence comes first is HONDA, yet the extractor returns
BENZ, because the scan is in the fixed priority order of the make list and
BENZ precedes HONDA there. -/
theorem c9_first_make_cex :
    specEarliestMake "HONDA BENZ" = some "HONDA"
    ∧ (extractKeywords "HONDA BENZ").1 = some "BENZ"
    ∧ (extractKeywords "HONDA BENZ").1 ≠ specEarliestMake "HONDA BENZ" := by
  refine ⟨by decide, by decide, by decide⟩

/-- Claim C9 (corrected): for every query containing at least one known
make token, the extractor returns the first element of the fixed ordered
make list that occurs anywhere in the uppercased query, every earlier list
element being absent from the query; the winner is the list-priority first
match, not necessarily the textually first occurrence. -/
theorem c9_first_make_amended (q : String)
    (hq : commonMakes.any (fun m => strContains (strUpper q) m) = true) :
    ∃ mk l1 l2, (extractKeywords q).1 = some mk
      ∧ strContains (strUpper q) mk = true
      ∧ commonMakes = l1 ++ mk :: l2
      ∧ ∀ m ∈ l1, strContains (strUpper q) m = false := by
  obtain ⟨x, hx⟩ := find?_of_any _ commonMakes hq
  obtain ⟨hpx, l1, l2, hdecomp, hall⟩ := find?_first _ commonMakes x hx
  exact ⟨x, l1, l2, by rw [extractKeywords_fst]; exact hx, hpx, hdecomp, hall⟩

/-- Witness for claim C9 at a concrete query containing a known make. -/
theorem c9_first_make_witness :
    ∃ mk l1 l2, (extractKeywords "Used Lexus RX350").1 = some mk
      ∧ strContains (strUpper "Used Lexus RX350") mk = true
      ∧ commonMakes = l1 ++ mk :: l2
      ∧ ∀ m ∈ l1, strContains (strUpper "Used Lexus RX350") m = false :=
  c9_first_make_amended "Used Lexus RX350" (by decide)

end UsedCars
